import Mathlib

/-!
Verification of the Source Resolution & Deduplication Engine of the
`spanish-learning-automation` repository.

The Python scripts are shallowly embedded: pure string/list computations are
translated function-by-function, and effectful collaborators (the Notion store,
the feed parser, the OpenAI analyzer, random draws, subprocess results) are
passed in explicitly as data, so every definition is executable.  The string
primitives Python uses (`lower`, `split`, `strip`, `in`, slicing) are modelled
by structurally recursive functions over `List Char`, mirroring Python's
code-point semantics.
-/

namespace SpanishAutomation

/-- Python `str.lower` on one character: ASCII letters and the Spanish
uppercase vowels/Ñ/Ü map down by 0x20; everything else is unchanged. -/
def lowerChar (c : Char) : Char :=
  if ('A' ≤ c ∧ c ≤ 'Z') ∨ c ∈ ['Á', 'É', 'Í', 'Ó', 'Ú', 'Ü', 'Ñ'] then
    Char.ofNat (c.toNat + 32)
  else c

/-- Python `str.lower`. -/
def pyLower (s : String) : String := String.mk (s.data.map lowerChar)

/-- Does `l` start with `p`? (Python `str.startswith`.) -/
def startsWithL : List Char → List Char → Bool
  | _, [] => true
  | [], _ :: _ => false
  | a :: as, b :: bs => a == b && startsWithL as bs

/-- Does `n` occur as a contiguous sublist of `h`?  (Python `n in h`;
an empty needle always occurs.) -/
def containsL : List Char → List Char → Bool
  | [], n => n.isEmpty
  | a :: t, n => startsWithL (a :: t) n || containsL t n

/-- Python's `needle in haystack` substring test on strings. -/
def strContains (haystack needle : String) : Bool :=
  containsL haystack.data needle.data

/-- Accumulator pass for Python's argument-less `str.split`: split on runs of
whitespace, discarding empty pieces.  `cur` holds the current word reversed. -/
def pySplitWsAux : List Char → List Char → List String
  | [], cur => if cur.isEmpty then [] else [String.mk cur.reverse]
  | c :: cs, cur =>
    if c.isWhitespace then
      if cur.isEmpty then pySplitWsAux cs []
      else String.mk cur.reverse :: pySplitWsAux cs []
    else pySplitWsAux cs (c :: cur)

/-- Python `str.split()` (no separator): whitespace runs, no empty pieces. -/
def pySplitWs (s : String) : List String := pySplitWsAux s.data []

/-- Python `str.split(sep)` for a one-character separator: keeps empty pieces. -/
def splitOnCharL (sep : Char) : List Char → List (List Char)
  | [] => [[]]
  | c :: cs =>
    let r := splitOnCharL sep cs
    if c == sep then [] :: r
    else
      match r with
      | [] => [[c]]
      | h :: t => (c :: h) :: t

/-- Python `str.split(sep)` for a one-character separator, on strings. -/
def pySplitOnChar (sep : Char) (s : String) : List String :=
  (splitOnCharL sep s.data).map String.mk

/-- Python `str.strip()`: drop leading and trailing whitespace. -/
def pyStrip (s : String) : String :=
  String.mk (((s.data.dropWhile Char.isWhitespace).reverse.dropWhile Char.isWhitespace).reverse)

/-- Python slicing `s[:n]` (first `n` code points). -/
def pyTake (n : Nat) (s : String) : String := String.mk (s.data.take n)

example : pyLower "Hola, Mundo ÑÁ" = "hola, mundo ñá" := by decide
example : pySplitWs "  hola   mundo " = ["hola", "mundo"] := by decide
example : strContains "abcd" "bc" = true ∧ strContains "abcd" "ca" = false := by decide
example : pySplitOnChar ',' "a,,b" = ["a", "", "b"] := by decide
example : pyStrip "  ab " = "ab" ∧ pyTake 2 "hola" = "ho" := by decide

/-! ## DuplicateGuard: `check_duplicate_page` (create_notion_pages.py) -/

/-- The token set built by `set(title.lower().split())` in
`check_duplicate_page` (create_notion_pages.py line 440): lowercase, split on
whitespace (empty pieces discarded by Python's argument-less `split`). -/
def titleWords (s : String) : Finset String := (pySplitWs (pyLower s)).toFinset

/-- `similarity = len(title_words & existing_words) / len(title_words | existing_words)`
(create_notion_pages.py line 444), as an exact rational. -/
def titleSimilarity (t e : String) : ℚ :=
  ((titleWords t ∩ titleWords e).card : ℚ) / ((titleWords t ∪ titleWords e).card : ℚ)

/-- The per-pair duplicate decision of `check_duplicate_page`
(create_notion_pages.py lines 438-451): both token sets nonempty
(`if title_words and existing_words`) and Jaccard similarity `>= 0.9`. -/
def isDuplicatePair (t e : String) : Bool :=
  if titleWords t ≠ ∅ ∧ titleWords e ≠ ∅ then
    decide ((9 : ℚ) / 10 ≤ titleSimilarity t e)
  else false

/-- State of the Notion store and its query channel, as observed by
`check_duplicate_page`:
* `configured`: `NOTION_TOKEN` and `NOTION_DATABASE_ID` are both set;
* `hasTitleProp`: the database exposes a `title`-typed property;
* `queryOk`: the `databases/{id}/query` POST returned status 200 and raised no
  exception (`false` covers both the non-200 branch and the `except` branch);
* `storedTitles`: the titles of the pages stored in the database, in the
  order the store returns them. -/
structure NotionQueryEnv where
  configured : Bool
  hasTitleProp : Bool
  queryOk : Bool
  storedTitles : List String

/-- The page titles the Notion query hands back to `check_duplicate_page`
(create_notion_pages.py lines 408-426): the filter keeps pages whose title
contains `title[:20]` as a substring, and `page_size: 20` caps the result. -/
def queryResults (title : String) (env : NotionQueryEnv) : List String :=
  (env.storedTitles.filter (fun e => strContains e (pyTake 20 title))).take 20

/-- `check_duplicate_page(title, content_type)` (create_notion_pages.py
lines 378-464).  Missing configuration, a missing title property and a failed
query (non-200 status or an exception) all return `False`; otherwise the
function returns `True` iff some returned stored title passes
`isDuplicatePair`.  (`content_type` is unused by the Python body.) -/
def check_duplicate_page (title : String) (env : NotionQueryEnv) : Bool :=
  if !env.configured then false
  else if !env.hasTitleProp then false
  else if !env.queryOk then false
  else (queryResults title env).any (fun e => isDuplicatePair title e)

example : titleWords "Hola, Mundo" = ({"hola,", "mundo"} : Finset String) := by decide

lemma titleWords_union_card_pos {t e : String} (ht : titleWords t ≠ ∅) :
    0 < (titleWords t ∪ titleWords e).card := by
  rcases Finset.nonempty_iff_ne_empty.mpr ht with ⟨x, hx⟩
  exact Finset.card_pos.mpr ⟨x, Finset.mem_union_left _ hx⟩

/-- The floating-point comparison `similarity >= 0.9` of the source, turned
into an equivalent (kernel-computable) comparison of natural numbers. -/
lemma similarity_ge_iff {t e : String} (ht : titleWords t ≠ ∅) :
    ((9 : ℚ) / 10 ≤ titleSimilarity t e) ↔
      9 * (titleWords t ∪ titleWords e).card ≤ 10 * (titleWords t ∩ titleWords e).card := by
  have hu : (0 : ℚ) < ((titleWords t ∪ titleWords e).card : ℚ) := by
    exact_mod_cast titleWords_union_card_pos (e := e) ht
  rw [titleSimilarity, div_le_div_iff₀ (by norm_num : (0 : ℚ) < 10) hu,
    mul_comm ((titleWords t ∩ titleWords e).card : ℚ) 10]
  exact_mod_cast Iff.rfl

/-- Decidable characterisation of the per-pair duplicate test. -/
lemma isDuplicatePair_iff (t e : String) :
    isDuplicatePair t e = true ↔
      titleWords t ≠ ∅ ∧ titleWords e ≠ ∅ ∧
        9 * (titleWords t ∪ titleWords e).card ≤ 10 * (titleWords t ∩ titleWords e).card := by
  unfold isDuplicatePair
  by_cases h : titleWords t ≠ ∅ ∧ titleWords e ≠ ∅
  · rw [if_pos h, decide_eq_true_eq, similarity_ge_iff h.1]
    constructor
    · intro hx; exact ⟨h.1, h.2, hx⟩
    · rintro ⟨-, -, hx⟩; exact hx
  · rw [if_neg h]
    constructor
    · intro hf; cases hf
    · rintro ⟨h1, h2, -⟩; exact absurd ⟨h1, h2⟩ h

example : isDuplicatePair "hola mundo" "Mundo hola" = true :=
  (isDuplicatePair_iff _ _).mpr ⟨by decide, by decide, by decide⟩
example : isDuplicatePair "hola mundo" "hola, mundo" = false := by
  rw [Bool.eq_false_iff, Ne, isDuplicatePair_iff]; decide
example :
    check_duplicate_page "b a"
      ⟨true, true, true, ["a b"]⟩ = false := by
  have h : queryResults "b a" ⟨true, true, true, ["a b"]⟩ = [] := by decide
  simp [check_duplicate_page, h]

/-! ## Publisher entry point: `create_notion_page` (create_notion_pages.py) -/

/-- The values `create_notion_page` can return: the sentinel strings
`"DUPLICATE_FOUND"` and `"ALTERNATIVE_REGISTERED"`, a created page's URL, or
Python `None` (missing configuration, publish HTTP failure, or exception). -/
inductive PageOutcome
  | duplicateFound
  | alternativeRegistered
  | pageUrl (url : String)
  | noneResult
deriving DecidableEq

/-- The tail of `create_notion_page` past the duplicate gate
(create_notion_pages.py lines 88-376): if `NOTION_TOKEN`/`NOTION_DATABASE_ID`
are missing, return `None` without posting (lines 92-94); if the property
mapping finds no `title`-typed property, return `None` without posting
(lines 164-167); otherwise POST the page, yielding its URL on status 200 and
`None` otherwise.  The second component records whether the page-creation
POST was issued. -/
def publishPhase (env : NotionQueryEnv) (publishResult : Option String) :
    PageOutcome × Bool :=
  if !env.configured then (.noneResult, false)
  else if !env.hasTitleProp then (.noneResult, false)
  else
    match publishResult with
    | some url => (.pageUrl url, true)
    | none => (.noneResult, true)

/-- `create_notion_page(title, url, content_type, memo, ...)`
(create_notion_pages.py lines 47-376).  Collaborator outcomes are passed as
data: `env` is the Notion store as seen by `check_duplicate_page`,
`sufficient_colloquial` is `SUFFICIENT_COLLOQUIAL_FOUND == 'true'`,
`altSuccess` is what `try_alternative_materials` would return, and
`publishResult` is the page-creation POST's outcome.  Returns the function's
result together with the flag "the page-creation POST was issued". -/
def create_notion_page (title ctype : String)
    (is_alternative sufficient_colloquial : Bool) (env : NotionQueryEnv)
    (altSuccess : Bool) (publishResult : Option String) : PageOutcome × Bool :=
  if !is_alternative then
    if check_duplicate_page title env then
      if sufficient_colloquial && (ctype == "podcast") then (.duplicateFound, false)
      else if altSuccess then (.alternativeRegistered, false)
      else (.duplicateFound, false)
    else publishPhase env publishResult
  else
    if check_duplicate_page title env then (.duplicateFound, false)
    else publishPhase env publishResult

/-- Helper: a store in which the candidate title itself is already present
makes `check_duplicate_page` report a duplicate. -/
lemma check_duplicate_page_self :
    check_duplicate_page "aa bb" ⟨true, true, true, ["aa bb"]⟩ = true := by
  have hq : queryResults "aa bb" ⟨true, true, true, ["aa bb"]⟩ = ["aa bb"] := by decide
  have hp : isDuplicatePair "aa bb" "aa bb" = true :=
    (isDuplicatePair_iff _ _).mpr ⟨by decide, by decide, by decide⟩
  simp [check_duplicate_page, hq, hp]

/-- C1: in every invocation of `create_notion_page`, the page-creation POST is
issued only if `check_duplicate_page` returned `false` in that invocation, and
when the duplicate check returns `true` no page is created and the function
returns one of the duplicate/alternative sentinels. -/
theorem create_notion_page_no_publish_on_duplicate
    (title ctype : String) (is_alternative sufficient_colloquial : Bool)
    (env : NotionQueryEnv) (altSuccess : Bool) (publishResult : Option String) :
    ((create_notion_page title ctype is_alternative sufficient_colloquial env
        altSuccess publishResult).2 = true →
      check_duplicate_page title env = false)
    ∧ (check_duplicate_page title env = true →
        (create_notion_page title ctype is_alternative sufficient_colloquial env
            altSuccess publishResult).2 = false
        ∧ ((create_notion_page title ctype is_alternative sufficient_colloquial env
              altSuccess publishResult).1 = .duplicateFound
          ∨ (create_notion_page title ctype is_alternative sufficient_colloquial env
              altSuccess publishResult).1 = .alternativeRegistered)) := by
  constructor
  · intro hp
    by_contra hc
    rw [Bool.not_eq_false] at hc
    unfold create_notion_page at hp
    cases is_alternative <;> simp [hc] at hp <;> split_ifs at hp <;> simp_all
  · intro hc
    unfold create_notion_page
    cases is_alternative <;> simp [hc] <;> split_ifs <;> simp_all

/-- Witness for C1 at a concrete duplicate store. -/
theorem create_notion_page_no_publish_on_duplicate_witness :
    check_duplicate_page "aa bb" ⟨true, true, true, ["aa bb"]⟩ = true
    ∧ (create_notion_page "aa bb" "article" false false
        ⟨true, true, true, ["aa bb"]⟩ true (some "u")).2 = false := by
  refine ⟨check_duplicate_page_self, ?_⟩
  exact ((create_notion_page_no_publish_on_duplicate "aa bb" "article" false false
    ⟨true, true, true, ["aa bb"]⟩ true (some "u")).2 check_duplicate_page_self).1

/-- C3: whenever the duplicate-store query fails (non-200 response or an
exception), `check_duplicate_page` returns `false` — never `true`, never an
error — and, provided the page can be created at all (the Notion
configuration is present and the database has a title-typed property),
`create_notion_page` goes on to issue the page-creation POST. -/
theorem check_duplicate_page_fails_open
    (title ctype : String) (is_alternative sufficient_colloquial : Bool)
    (env : NotionQueryEnv) (altSuccess : Bool) (publishResult : Option String)
    (hfail : env.queryOk = false) :
    check_duplicate_page title env = false
    ∧ (env.configured = true → env.hasTitleProp = true →
        (create_notion_page title ctype is_alternative sufficient_colloquial env
          altSuccess publishResult).2 = true) := by
  have hc : check_duplicate_page title env = false := by
    unfold check_duplicate_page
    rw [hfail]
    split <;> simp
  refine ⟨hc, fun hconf htp => ?_⟩
  unfold create_notion_page publishPhase
  cases is_alternative <;> simp [hc, hconf, htp] <;> cases publishResult <;> simp

/-- Witness for C3: a concrete failed query on a store that does hold the
candidate title, with the configuration and the title property present. -/
theorem check_duplicate_page_fails_open_witness :
    (⟨true, true, false, ["aa bb"]⟩ : NotionQueryEnv).queryOk = false
    ∧ check_duplicate_page "aa bb" ⟨true, true, false, ["aa bb"]⟩ = false
    ∧ (create_notion_page "aa bb" "podcast" false false
        ⟨true, true, false, ["aa bb"]⟩ false (some "u")).2 = true := by
  have h := check_duplicate_page_fails_open "aa bb" "podcast" false false
    ⟨true, true, false, ["aa bb"]⟩ false (some "u") rfl
  exact ⟨rfl, h.1, h.2 rfl rfl⟩

/-- C10: `check_duplicate_page` only compares the candidate against stored
titles returned by the query, whose filter keeps exactly the titles containing
`title[:20]` as a substring; a stored title without that prefix substring can
never make the check report a duplicate, whatever its full-title similarity. -/
theorem check_duplicate_page_prefix_filter
    (title : String) (env : NotionQueryEnv)
    (hmiss : ∀ e ∈ env.storedTitles, strContains e (pyTake 20 title) = false) :
    check_duplicate_page title env = false := by
  have hq : queryResults title env = [] := by
    unfold queryResults
    rw [List.filter_eq_nil_iff.mpr (by simpa using hmiss)]
    rfl
  unfold check_duplicate_page
  rw [hq]
  split <;> simp

/-- Witness for C10: the stored title `"a b"` has token-Jaccard similarity 1
with the candidate `"b a"`, yet it does not contain the candidate's
20-character prefix, so no duplicate is reported. -/
theorem check_duplicate_page_prefix_filter_witness :
    (9 : ℚ) / 10 ≤ titleSimilarity "b a" "a b"
    ∧ check_duplicate_page "b a" ⟨true, true, true, ["a b"]⟩ = false := by
  constructor
  · rw [similarity_ge_iff (by decide)]; decide
  · exact check_duplicate_page_prefix_filter "b a" ⟨true, true, true, ["a b"]⟩
      (by decide)

/-! ## C2: the spec's description of the duplicate algorithm

The spec claims the titles are normalized by lowercasing AND stripping
punctuation.  The code (`check_duplicate_page`, lines 440-441) only lowercases
and splits on whitespace.  The following `spec…` definitions follow the
spec's words, for comparison with the code's `isDuplicatePair`. -/

/-- The static article-source catalog `alternative_sources`, identical in
`alternative_finder.find_alternative_article` (lines 19-25) and
`create_notion_pages.find_and_register_alternative_article` (lines 534-540):
`(name, rss_url)` pairs in declaration order. -/
def articleAlternativeSources : List (String × String) :=
  [("20minutos", "https://www.20minutos.es/rss/"),
   ("El País", "https://feeds.elpais.com/mrss-s/pages/ep/site/elpais.com/portada"),
   ("El País 사설", "https://feeds.elpais.com/mrss-s/pages/ep/site/elpais.com/section/opinion"),
   ("El Mundo", "https://e00-elmundo.uecdn.es/elmundo/rss/portada.xml"),
   ("ABC", "https://www.abc.es/rss/feeds/abc_EspanaEspana.xml")]

/-- `available_sources = [source for source in alternative_sources if source[0] != current_source]`
(alternative_finder.py line 28, create_notion_pages.py line 543). -/
def available_sources (current : String) : List (String × String) :=
  articleAlternativeSources.filter (fun s => s.1 != current)

/-- Static data of one catalog podcast (`rss`, `apple_base`, `region`). -/
structure PodcastInfo where
  rss : String
  appleBase : String
  region : String
deriving DecidableEq

/-- The `all_podcasts` dict of `get_alternative_podcasts`
(collect_materials.py lines 704-729), in insertion order. -/
def all_podcasts : List (String × PodcastInfo) :=
  [("SpanishPodcast",
    ⟨"https://feeds.feedburner.com/SpanishPodcast",
     "https://podcasts.apple.com/us/podcast/spanishpodcast/id70077665", "스페인"⟩),
   ("Radio Ambulante",
    ⟨"https://feeds.simplecast.com/54nAGcIl",
     "https://podcasts.apple.com/kr/podcast/radio-ambulante/id527614348", "중남미"⟩),
   ("Españolistos",
    ⟨"https://creators.spotify.com/pod/show/espanolistos/rss",
     "https://podcasts.apple.com/us/podcast/espa%C3%B1olistos/id1508733186", "남미"⟩),
   ("SpanishPodcast (금요일)",
    ⟨"https://feeds.feedburner.com/SpanishPodcast",
     "https://podcasts.apple.com/us/podcast/spanishpodcast/id70077665", "스페인"⟩)]

/-- `get_alternative_podcasts(current_weekday, current_podcast_name)`
(collect_materials.py lines 702-737): iterate the dict in insertion order and
keep every podcast whose name differs from the current one.  (The
`current_weekday` parameter is unused by the Python body.) -/
def get_alternative_podcasts (currentName : String) : List (String × PodcastInfo) :=
  all_podcasts.filter (fun p => p.1 != currentName)

/-- C5: for every current source identifier, the fallback list holds exactly
the catalog sources whose identifier differs from the current one — the
current source is always excluded — and `List.Sublist` of the catalog captures
that the relative catalog order is preserved, with no reordering. -/
theorem alternative_sources_exact (current : String) :
    (∀ s, s ∈ available_sources current ↔
      (s ∈ articleAlternativeSources ∧ s.1 ≠ current))
    ∧ (available_sources current).Sublist articleAlternativeSources
    ∧ (∀ p, p ∈ get_alternative_podcasts current ↔
        (p ∈ all_podcasts ∧ p.1 ≠ current))
    ∧ (get_alternative_podcasts current).Sublist all_podcasts := by
  refine ⟨fun s => ?_, List.filter_sublist _, fun p => ?_, List.filter_sublist _⟩
  · simp [available_sources, List.mem_filter, bne_iff_ne]
  · simp [get_alternative_podcasts, List.mem_filter, bne_iff_ne]

/-- Witness for C5: with `"El País"` as the current source, `"20minutos"`
stays in the article fallback list and `"El País"` itself is excluded; the
same for the podcast catalog with `"Radio Ambulante"`. -/
theorem alternative_sources_exact_witness :
    ("20minutos", "https://www.20minutos.es/rss/") ∈ available_sources "El País"
    ∧ ∀ info, ("El País", info) ∉ available_sources "El País" := by
  constructor
  · exact ((alternative_sources_exact "El País").1 _).mpr ⟨by decide, by decide⟩
  · intro info hmem
    exact absurd (((alternative_sources_exact "El País").1 _).mp hmem).2 (by simp)

/-! ## FallbackOrchestrator bounds (alternative_finder.main,
collect_materials.try_alternative_podcast) -/

/-- The retry loop of `alternative_finder.main` (lines 156-199) driven by the
sequence of outcomes `run_create_notion_pages` would produce: at most 3
attempts, stopping at the first success.  Returns the loop's `success` flag
and the number of attempts actually performed. -/
def afRun : List Bool → Bool × Nat
  | [] => (false, 0)
  | r :: rs => if r then (true, 1) else ((afRun rs).1, (afRun rs).2 + 1)

/-- `alternative_finder.main` with `max_attempts = 3` (line 160). -/
def alternative_finder_main (results : List Bool) : Bool × Nat :=
  afRun (results.take 3)

/-- `is_episode_recent(published_date, ...)` (collect_materials.py lines
26-31): the body is literally `return True` — every episode is accepted. -/
def is_episode_recent (_published : Option Nat) : Bool := true

/-- The inner loop `for entry in feed.entries[:3]` of `try_alternative_podcast`
(collect_materials.py lines 755-762): the first entry passing the recency
check is selected. -/
def firstRecentEpisode : List String → Option String
  | [] => none
  | e :: es => if is_episode_recent none then some e else firstRecentEpisode es

/-- `try_alternative_podcast(alternatives, weekday_name)` (collect_materials.py
lines 741-828), with each alternative given as its name paired with its feed's
entry titles: skip sources with empty feeds, inspect only the first 3 entries
of each feed, and return the first accepted `(source, episode)` pair. -/
def try_alternative_podcast :
    List (String × List String) → Option (String × String)
  | [] => none
  | (nm, entries) :: rest =>
    if entries.isEmpty then try_alternative_podcast rest
    else
      match firstRecentEpisode (entries.take 3) with
      | some e => some (nm, e)
      | none => try_alternative_podcast rest

lemma afRun_snd_le_length (l : List Bool) : (afRun l).2 ≤ l.length := by
  induction l with
  | nil => simp [afRun]
  | cons r rs ih =>
    by_cases h : r = true <;> simp [afRun, h] <;> omega

lemma afRun_fst_eq_any (l : List Bool) : (afRun l).1 = l.any id := by
  induction l with
  | nil => simp [afRun]
  | cons r rs ih =>
    by_cases h : r = true <;> simp [afRun, h, ih]

/-- C4: the cascade terminates within a hard finite bound. The outer driver
performs at most 3 page-creation passes, stops at the first success, and once
the 3 passes are exhausted without success it stops and reports failure; the
fallback list only holds catalog sources other than the current one (so its
traversal is finite); and the episode search inspects at most the first 3 feed
entries of each alternative source (dropping later entries never changes its
result). -/
theorem fallback_cascade_bounded :
    (∀ results : List Bool,
      (alternative_finder_main results).2 ≤ 3
      ∧ (alternative_finder_main results).1 = (results.take 3).any id)
    ∧ (∀ rest : List Bool, alternative_finder_main (true :: rest) = (true, 1))
    ∧ (∀ (nm : String) (entries : List String)
        (rest : List (String × List String)),
        try_alternative_podcast ((nm, entries) :: rest)
          = try_alternative_podcast ((nm, entries.take 3) :: rest))
    ∧ (∀ current,
        (available_sources current).length ≤ articleAlternativeSources.length
        ∧ ∀ s ∈ available_sources current,
            s ∈ articleAlternativeSources ∧ s.1 ≠ current)
    ∧ (∀ current,
        (get_alternative_podcasts current).length ≤ all_podcasts.length
        ∧ ∀ p ∈ get_alternative_podcasts current, p.1 ≠ current) := by
  refine ⟨fun results => ⟨?_, ?_⟩, fun rest => ?_, fun nm entries rest => ?_,
    fun current => ⟨?_, fun s hs => ?_⟩, fun current => ⟨?_, fun p hp => ?_⟩⟩
  · calc (alternative_finder_main results).2
        ≤ (results.take 3).length := afRun_snd_le_length _
      _ ≤ 3 := by simp
  · exact afRun_fst_eq_any _
  · simp [alternative_finder_main, afRun]
  · cases entries with
    | nil => rfl
    | cons a t => simp [try_alternative_podcast, List.take_take]
  · exact List.length_filter_le _ articleAlternativeSources
  · exact ((alternative_sources_exact current).1 s).mp hs
  · exact List.length_filter_le _ all_podcasts
  · exact (((alternative_sources_exact current).2.2.1 p).mp hp).2

/-- Witness for C4: three failed passes exhaust the driver, which reports
failure after exactly 3 attempts; a success on the first pass stops it at once;
and a concrete fallback list excludes the current source. -/
theorem fallback_cascade_bounded_witness :
    alternative_finder_main [false, false, false, true] = (false, 3)
    ∧ alternative_finder_main [true, false] = (true, 1)
    ∧ ("20minutos", "https://www.20minutos.es/rss/") ∈ available_sources "El País"
    ∧ try_alternative_podcast [("A", ["e1", "e2", "e3", "e4"])]
        = try_alternative_podcast [("A", ["e1", "e2", "e3"])] := by
  have h := fallback_cascade_bounded
  refine ⟨?_, h.2.1 [false], by decide, ?_⟩
  · have h1 := (h.1 [false, false, false, true]).1
    have h2 := (h.1 [false, false, false, true]).2
    have : (alternative_finder_main [false, false, false, true]).1 = false := by
      simpa using h2
    have hc : (alternative_finder_main [false, false, false, true]).2 = 3 := by
      simp [alternative_finder_main, afRun]
    cases hx : alternative_finder_main [false, false, false, true] with
    | mk a b => simp_all
  · have := h.2.2.1 "A" ["e1", "e2", "e3", "e4"] []
    simpa using this

/-! ## FeedResolver candidate indices (collect_materials.main) -/

/-- The article entry selection of `main` (collect_materials.py lines
1516-1524): `entry_index = min(random.randint(1, 3), len(feed.entries) - 1)`
in alternative-search mode, else the default index 0.  `r` stands for the
value drawn by `randint(1, 3)` (so `1 ≤ r ≤ 3`). -/
def articleEntryIndex (force_alternative : Bool) (r numEntries : Nat) : Nat :=
  if force_alternative then min r (numEntries - 1) else 0

/-- The backup-feed podcast episode selection of `main` (collect_materials.py
lines 1659-1664): `episode_index = random.randint(0, len(recent_episodes) - 1)`
in alternative-search mode when more than one episode is available, else the
default index 0.  `r` stands for the value drawn by `randint(0, n - 1)`
(so `r ≤ n - 1`). -/
def backupEpisodeIndex (force_alternative : Bool) (r numEpisodes : Nat) : Nat :=
  if force_alternative && decide (1 < numEpisodes) then r else 0

/-- C6 counterexample: in alternative-search mode, with 2 available episodes,
the draw `r = 0` is legal for `randint(0, n - 1)` and the backup-podcast
selection then picks exactly the default index 0 — the entry that triggered
the fallback can be re-surfaced. -/
theorem alternative_mode_can_reselect_default_index :
    backupEpisodeIndex true 0 2 = 0 ∧ 0 ≤ 2 - 1 := by decide

/-- C6 amended: in alternative-search mode the *article* selection
(`min(randint(1,3), n-1)`) never picks the default index 0 when the feed has
more than one entry (and outside alternative mode the default index 0 is
used); the *backup-podcast* selection, by contrast, draws uniformly from
`[0, n-1]` and therefore returns whatever was drawn — including 0. -/
theorem alternative_mode_index_selection (r n : Nat) (hr : 1 ≤ r) (hn : 1 < n) :
    articleEntryIndex true r n ≠ 0
    ∧ articleEntryIndex false r n = 0
    ∧ (∀ k, k ≤ n - 1 → backupEpisodeIndex true k n = k) := by
  refine ⟨?_, by simp [articleEntryIndex], fun k _ => by simp [backupEpisodeIndex, hn]⟩
  have hmin : articleEntryIndex true r n = min r (n - 1) := by
    simp [articleEntryIndex]
  rw [hmin, Nat.min_def]
  split <;> omega

/-- Witness for the amended C6 at a concrete draw and feed size. -/
theorem alternative_mode_index_selection_witness :
    articleEntryIndex true 2 5 ≠ 0 ∧ backupEpisodeIndex true 3 5 = 3 := by
  have h := alternative_mode_index_selection 2 5 (by decide) (by decide)
  exact ⟨h.1, h.2.2 3 (by decide)⟩

/-! ## ContentClassifier: difficulty (collect_materials.py, llm_analyzer.py) -/

/-- Python `str.upper` on one character, the inverse companion of
`lowerChar`. -/
def upperChar (c : Char) : Char :=
  if ('a' ≤ c ∧ c ≤ 'z') ∨ c ∈ ['á', 'é', 'í', 'ó', 'ú', 'ü', 'ñ'] then
    Char.ofNat (c.toNat - 32)
  else c

/-- Python `str.upper`. -/
def pyUpper (s : String) : String := String.mk (s.data.map upperChar)

/-- `valid_levels` (llm_analyzer.py line 381), in declaration order. -/
def validLevels : List String := ["A1", "A2", "B1", "B1+", "B2", "B2+", "C1", "C2"]

/-- `SpanishLLMAnalyzer.analyze_text_difficulty(content)` (llm_analyzer.py
lines 348-386), given the ChatGPT response: `apiResp = none` models a request
exception inside `_make_api_call` (which returns `""` then); empty content, an
empty response and a response containing no valid CEFR level all yield the
default `"B2"`; otherwise the first level of `valid_levels` occurring in the
upper-cased stripped response is returned. -/
def llm_analyze_text_difficulty (content : String) (apiResp : Option String) :
    String :=
  if content = "" then "B2"
  else
    let response := apiResp.getD ""
    if response = "" then "B2"
    else
      match validLevels.find? (fun l => strContains (pyUpper (pyStrip response)) l) with
      | some l => l
      | none => "B2"

/-- `analyze_text_difficulty(content)` (collect_materials.py lines 35-49):
empty content, an unavailable LLM analyzer (`LLM_AVAILABLE` false or
`OPENAI_API_KEY` unset) and any exception from the analyzer (modelled by
`callResult = none`) fall back to the default `"B2"`; otherwise it delegates
to the analyzer method.  The function is total: no failure escapes it. -/
def analyze_text_difficulty (content : String) (llmAvailable apiKeySet : Bool)
    (callResult : Option (Option String)) : String :=
  if content = "" then "B2"
  else if !(llmAvailable && apiKeySet) then "B2"
  else
    match callResult with
    | none => "B2"
    | some resp => llm_analyze_text_difficulty content resp

/-- C8: `analyze_text_difficulty` returns the fixed default `"B2"` whenever
the text is empty, the analyzer is unavailable (module missing or API key
unset), the analyzer raises, the API call fails or returns nothing, or the
response contains no recognized CEFR level; being a total function, the
failure is never propagated. -/
theorem classify_difficulty_default (content : String) (av key : Bool)
    (callResult : Option (Option String))
    (h : content = "" ∨ av = false ∨ key = false ∨ callResult = none
      ∨ callResult = some none ∨ callResult = some (some "")
      ∨ ∃ r, callResult = some (some r)
        ∧ validLevels.all
            (fun l => !(strContains (pyUpper (pyStrip r)) l)) = true) :
    analyze_text_difficulty content av key callResult = "B2" := by
  unfold analyze_text_difficulty
  rcases h with h | h | h | h | h | h | ⟨r, hr, hall⟩
  · simp [h]
  · by_cases hc : content = "" <;> simp [hc, h]
  · by_cases hc : content = "" <;> simp [hc, h]
  · by_cases hc : content = "" <;> simp [hc, h]
  · subst h
    by_cases hc : content = "" <;> simp [hc, llm_analyze_text_difficulty]
  · subst h
    by_cases hc : content = "" <;> simp [hc, llm_analyze_text_difficulty]
  · subst hr
    have hfind :
        validLevels.find? (fun l => strContains (pyUpper (pyStrip r)) l) = none := by
      rw [List.find?_eq_none]
      intro l hl
      have := List.all_eq_true.mp hall l hl
      simpa using this
    by_cases hc : content = ""
    · simp [hc]
    · by_cases hr0 : r = "" <;>
        simp [hc, llm_analyze_text_difficulty, hr0, hfind]

/-- Witness for C8: a non-empty text whose analyzer response mentions no CEFR
level falls back to `"B2"`. -/
theorem classify_difficulty_default_witness :
    analyze_text_difficulty "hola" true true (some (some "great text")) = "B2" :=
  classify_difficulty_default "hola" true true (some (some "great text"))
    (Or.inr (Or.inr (Or.inr (Or.inr (Or.inr (Or.inr
      ⟨"great text", rfl, by decide⟩))))))

/-! ## ContentClassifier: topic/category (collect_materials.py) -/

/-- The `keywords` taxonomy of `extract_category_from_content`
(collect_materials.py lines 421-429), in declaration order. -/
def categoryKeywords : List (String × List String) :=
  [("정치", ["gobierno", "política", "elecciones", "parlamento", "ministro",
    "rey", "presidente", "votación", "congreso"]),
   ("경제", ["economía", "banco", "euro", "empleo", "crisis", "mercado",
    "dinero", "trabajo", "empresa", "inversión"]),
   ("사회", ["sociedad", "educación", "sanidad", "vivienda", "familia",
    "salud", "población", "ciudadanos"]),
   ("스포츠", ["fútbol", "real madrid", "barcelona", "liga", "deporte",
    "partido", "atletico", "champions"]),
   ("기술", ["tecnología", "internet", "móvil", "digital", "app",
    "inteligencia", "innovación"]),
   ("문화", ["cultura", "arte", "música", "teatro", "festival", "libro",
    "cine", "exposición"]),
   ("국제", ["internacional", "mundial", "europa", "américa", "china",
    "estados unidos", "unión europea"])]

/-- `score = sum(1 for word in words if word in full_text)`
(collect_materials.py line 433): the number of the category's keywords that
occur in the text. -/
def keywordScore (ws : List String) (fullText : String) : Nat :=
  (ws.filter (fun w => strContains fullText w)).length

/-- The `category_scores` dict (collect_materials.py lines 431-435): the
categories with a positive score, in taxonomy order, paired with their
scores. -/
def category_scores (fullText : String) : List (String × Nat) :=
  categoryKeywords.filterMap (fun cw =>
    if 0 < keywordScore cw.2 fullText then some (cw.1, keywordScore cw.2 fullText)
    else none)

/-- Python's `max(category_scores, key=category_scores.get)` over a non-empty
insertion-ordered dict: keep the current best unless a later value is strictly
greater, so the first key attaining the maximum wins. -/
def pyMaxGo (c : String) (s : Nat) : List (String × Nat) → String × Nat
  | [] => (c, s)
  | (c', s') :: rest => if s < s' then pyMaxGo c' s' rest else pyMaxGo c s rest

/-- `max(dict, key=dict.get)` returning `none` on an empty dict. -/
def pyMaxByValue : List (String × Nat) → Option String
  | [] => none
  | (c, s) :: rest => some (pyMaxGo c s rest).1

/-- `full_text = (title + " " + content).lower()` (collect_materials.py
line 419). -/
def catFullText (title content : String) : String :=
  pyLower (title ++ " " ++ content)

/-- `extract_category_from_content(title, content)` (collect_materials.py
lines 417-439). -/
def extract_category_from_content (title content : String) : String :=
  match pyMaxByValue (category_scores (catFullText title content)) with
  | some c => c
  | none => "일반"

/-- The `topic_keywords` taxonomy of `extract_topic_keywords`
(collect_materials.py lines 489-502), in declaration order. -/
def topicKeywords : List (String × List String) :=
  [("문법", ["gramática", "verbos", "subjuntivo", "pretérito", "sintaxis"]),
   ("문화", ["cultura", "tradición", "costumbres", "historia", "arte"]),
   ("요리", ["cocina", "comida", "receta", "gastronomía", "plato"]),
   ("여행", ["viajes", "turismo", "ciudades", "lugares", "destinos"]),
   ("직업", ["trabajo", "empleo", "profesión", "carrera", "oficina"]),
   ("가족", ["familia", "padres", "hijos", "matrimonio", "casa"]),
   ("기술", ["tecnología", "internet", "móviles", "digital", "aplicaciones"]),
   ("정치", ["política", "gobierno", "elecciones", "democracia"]),
   ("경제", ["economía", "dinero", "banco", "trabajo", "crisis",
    "preferentes", "ahorros"]),
   ("사회", ["sociedad", "gente", "problemas", "cambios", "vida"]),
   ("건강", ["salud", "medicina", "hospital", "enfermedad", "médico"]),
   ("교육", ["educación", "estudiantes", "universidad", "aprender"])]

/-- `content = (title + " " + summary).lower()` (collect_materials.py
line 487). -/
def topicFullText (title summary : String) : String :=
  pyLower (title ++ " " ++ summary)

/-- `extract_topic_keywords(title, summary)` (collect_materials.py lines
486-507): return the FIRST topic (in declaration order) one of whose keywords
occurs in the text — no scoring across topics. -/
def extract_topic_keywords (title summary : String) : String :=
  match topicKeywords.find?
      (fun tw => tw.2.any (fun w => strContains (topicFullText title summary) w)) with
  | some tw => tw.1
  | none => "일반 주제"

/-- The topic classification the spec describes: score every topic of the
taxonomy by counting keyword occurrences and return the highest-scoring one,
ties broken by declaration order (spec's words; compare with the code's
`extract_topic_keywords`). -/
def specTopicByScore (title summary : String) : String :=
  match pyMaxByValue (topicKeywords.filterMap (fun tw =>
      if 0 < keywordScore tw.2 (topicFullText title summary) then
        some (tw.1, keywordScore tw.2 (topicFullText title summary))
      else none)) with
  | some t => t
  | none => "일반 주제"

lemma pyMaxGo_mem (c : String) (s : Nat) (l : List (String × Nat)) :
    pyMaxGo c s l = (c, s) ∨ pyMaxGo c s l ∈ l := by
  induction l generalizing c s with
  | nil => left; rfl
  | cons p rest ih =>
    rcases p with ⟨c', s'⟩
    by_cases h : s < s'
    · rcases ih c' s' with h1 | h1
      · right; rw [pyMaxGo, if_pos h, h1]; exact List.mem_cons_self _ _
      · right; rw [pyMaxGo, if_pos h]; exact List.mem_cons_of_mem _ h1
    · rcases ih c s with h1 | h1
      · left; rw [pyMaxGo, if_neg h, h1]
      · right; rw [pyMaxGo, if_neg h]; exact List.mem_cons_of_mem _ h1

lemma pyMaxGo_max (c : String) (s : Nat) (l : List (String × Nat)) :
    s ≤ (pyMaxGo c s l).2 ∧ ∀ p ∈ l, p.2 ≤ (pyMaxGo c s l).2 := by
  induction l generalizing c s with
  | nil => exact ⟨le_refl _, by simp⟩
  | cons q rest ih =>
    rcases q with ⟨c', s'⟩
    by_cases h : s < s'
    · rw [pyMaxGo, if_pos h]
      refine ⟨le_of_lt (lt_of_lt_of_le h (ih c' s').1), ?_⟩
      intro p hp
      rcases List.mem_cons.mp hp with rfl | hp
      · exact (ih c' s').1
      · exact (ih c' s').2 p hp
    · rw [pyMaxGo, if_neg h]
      refine ⟨(ih c s).1, ?_⟩
      intro p hp
      rcases List.mem_cons.mp hp with rfl | hp
      · exact le_trans (Nat.le_of_not_lt h) (ih c s).1
      · exact (ih c s).2 p hp

lemma pyMaxGo_head (c : String) (s : Nat) (l : List (String × Nat))
    (h : ∀ p ∈ l, p.2 ≤ s) : pyMaxGo c s l = (c, s) := by
  induction l generalizing c s with
  | nil => rfl
  | cons q rest ih =>
    rcases q with ⟨c', s'⟩
    have hq : s' ≤ s := h _ (List.mem_cons_self _ _)
    rw [pyMaxGo, if_neg (Nat.not_lt.mpr hq)]
    exact ih c s fun p hp => h p (List.mem_cons_of_mem _ hp)

lemma find?_first {α : Type} (p : α → Bool) (pre : List α) (x : α)
    (post : List α) (hpre : ∀ y ∈ pre, p y = false) (hx : p x = true) :
    (pre ++ x :: post).find? p = some x := by
  induction pre with
  | nil => simpa using List.find?_cons_of_pos post hx
  | cons a t ih =>
    have ha : p a = false := hpre a (List.mem_cons_self _ _)
    rw [List.cons_append, List.find?_cons_of_neg _ (by simp [ha])]
    exact ih fun y hy => hpre y (List.mem_cons_of_mem _ hy)

/-- C9 counterexample: on title `"cultura"` with summary
`"cocina comida receta"`, the highest-scoring topic is `요리` (3 keyword
matches against 1 for `문화`), but `extract_topic_keywords` returns `문화` —
the code returns the FIRST topic with any match, not the highest-scoring
one. -/
theorem topic_classification_counterexample :
    extract_topic_keywords "cultura" "cocina comida receta" = "문화"
    ∧ specTopicByScore "cultura" "cocina comida receta" = "요리"
    ∧ keywordScore ["cocina", "comida", "receta", "gastronomía", "plato"]
        (topicFullText "cultura" "cocina comida receta") = 3
    ∧ keywordScore ["cultura", "tradición", "costumbres", "historia", "arte"]
        (topicFullText "cultura" "cocina comida receta") = 1
    ∧ ("문화" : String) ≠ "요리" := by
  refine ⟨?_, ?_, by decide, by decide, by decide⟩
  · have : topicKeywords.find?
        (fun tw => tw.2.any
          (fun w => strContains (topicFullText "cultura" "cocina comida receta") w))
        = some ("문화", ["cultura", "tradición", "costumbres", "historia", "arte"]) := by
      decide
    rw [extract_topic_keywords, this]
  · decide

/-- C9 amended: `extract_category_from_content` does score each category by
counting keyword matches, returns a maximal-score category, breaks ties in
favour of the first-registered category, and returns the generic `일반` when
nothing matches; `extract_topic_keywords`, however, performs no scoring: it
returns the first topic in declaration order with ANY keyword match (`일반
주제` when none matches). -/
theorem topic_classification_behaviour (title content summary : String) :
    ((∀ cw ∈ categoryKeywords, keywordScore cw.2 (catFullText title content) = 0) →
      extract_category_from_content title content = "일반")
    ∧ ((∃ cw0 ∈ categoryKeywords,
          0 < keywordScore cw0.2 (catFullText title content)) →
        ∃ cw ∈ categoryKeywords, cw.1 = extract_category_from_content title content
          ∧ ∀ cw' ∈ categoryKeywords,
              keywordScore cw'.2 (catFullText title content)
                ≤ keywordScore cw.2 (catFullText title content))
    ∧ (∀ c s rest, category_scores (catFullText title content) = (c, s) :: rest →
        (∀ p ∈ rest, p.2 ≤ s) →
        extract_category_from_content title content = c)
    ∧ (∀ pre tw post, topicKeywords = pre ++ tw :: post →
        (∀ tw' ∈ pre, tw'.2.any
          (fun w => strContains (topicFullText title summary) w) = false) →
        tw.2.any (fun w => strContains (topicFullText title summary) w) = true →
        extract_topic_keywords title summary = tw.1)
    ∧ ((∀ tw ∈ topicKeywords, tw.2.any
          (fun w => strContains (topicFullText title summary) w) = false) →
        extract_topic_keywords title summary = "일반 주제") := by
  refine ⟨?_, ?_, ?_, ?_, ?_⟩
  · intro hzero
    have hsc : category_scores (catFullText title content) = [] := by
      rw [category_scores, List.filterMap_eq_nil_iff]
      intro cw hcw
      rw [if_neg]
      simp [hzero cw hcw]
    rw [extract_category_from_content, hsc]
    rfl
  · rintro ⟨cw0, hcw0, hpos0⟩
    have hmem0 : (cw0.1, keywordScore cw0.2 (catFullText title content))
        ∈ category_scores (catFullText title content) := by
      rw [category_scores, List.mem_filterMap]
      exact ⟨cw0, hcw0, by rw [if_pos hpos0]⟩
    rcases hsc : category_scores (catFullText title content) with _ | ⟨⟨c, s⟩, rest⟩
    · rw [hsc] at hmem0; cases hmem0
    · have hres : extract_category_from_content title content
          = (pyMaxGo c s rest).1 := by
        rw [extract_category_from_content, hsc]; rfl
      have hmax := pyMaxGo_max c s rest
      have hmemmax : pyMaxGo c s rest ∈ category_scores (catFullText title content) := by
        rw [hsc]
        rcases pyMaxGo_mem c s rest with h | h
        · rw [h]; exact List.mem_cons_self _ _
        · exact List.mem_cons_of_mem _ h
      rw [category_scores, List.mem_filterMap] at hmemmax
      rcases hmemmax with ⟨cw, hcw, hcweq⟩
      by_cases hp : 0 < keywordScore cw.2 (catFullText title content)
      · rw [if_pos hp, Option.some_inj] at hcweq
        refine ⟨cw, hcw, ?_, ?_⟩
        · rw [hres, ← hcweq]
        · intro cw' hcw'
          by_cases hp' : 0 < keywordScore cw'.2 (catFullText title content)
          · have hmem' : (cw'.1, keywordScore cw'.2 (catFullText title content))
                ∈ (c, s) :: rest := by
              rw [← hsc, category_scores, List.mem_filterMap]
              exact ⟨cw', hcw', by rw [if_pos hp']⟩
            have hle : keywordScore cw'.2 (catFullText title content)
                ≤ (pyMaxGo c s rest).2 := by
              rcases List.mem_cons.mp hmem' with heq | hmem'
              · have : s = keywordScore cw'.2 (catFullText title content) := by
                  exact (congrArg Prod.snd heq).symm
                rw [← this]; exact hmax.1
              · exact hmax.2 _ hmem'
            calc keywordScore cw'.2 (catFullText title content)
                ≤ (pyMaxGo c s rest).2 := hle
              _ = keywordScore cw.2 (catFullText title content) := by
                  rw [← hcweq]
          · exact le_trans (Nat.le_of_not_lt hp') (Nat.zero_le _)
      · rw [if_neg hp] at hcweq; cases hcweq
  · intro c s rest hsc hrest
    rw [extract_category_from_content, hsc]
    show (pyMaxGo c s rest).1 = c
    rw [pyMaxGo_head c s rest hrest]
  · intro pre tw post hsplit hpre htw
    rw [extract_topic_keywords, hsplit, find?_first _ pre tw post hpre htw]
  · intro hnone
    have : topicKeywords.find?
        (fun tw => tw.2.any
          (fun w => strContains (topicFullText title summary) w)) = none := by
      rw [List.find?_eq_none]
      intro tw htw
      simp [hnone tw htw]
    rw [extract_topic_keywords, this]

/-- Witness for the amended C9: a text matching nothing yields the generic
tags, and on the counterexample text the first matching topic is returned as
soon as no earlier topic matches. -/
theorem topic_classification_behaviour_witness :
    extract_category_from_content "xq" "zz" = "일반"
    ∧ extract_topic_keywords "xq" "zz" = "일반 주제"
    ∧ extract_category_from_content "gobierno presidente rey" "" = "정치" := by
  have h1 := topic_classification_behaviour "xq" "zz" "zz"
  have h2 := topic_classification_behaviour "gobierno presidente rey" "" ""
  refine ⟨h1.1 (by decide), h1.2.2.2.2 (by decide), ?_⟩
  exact h2.2.2.1 "정치" 3 [] (by decide) (by decide)

/-! ## ContentClassifier: colloquialism annotations (llm_analyzer.py) -/

/-- `meaning_part.split('(')[0].strip() if '(' in meaning_part else
meaning_part.strip()` (llm_analyzer.py lines 190-193 and 218-221). -/
def cutAtParen (meaningPart : String) : String :=
  if strContains meaningPart "(" then
    pyStrip (String.mk (splitOnCharL '(' meaningPart.data).headI)
  else pyStrip meaningPart

/-- Python `str.lstrip('- *•')`: drop leading characters of the given set. -/
def lstripSet (cs : List Char) (s : String) : String :=
  String.mk (s.data.dropWhile (fun c => cs.contains c))

/-- One iteration of the expression-parsing loop of
`analyze_podcast_colloquialisms` (llm_analyzer.py lines 171-232): strip the
line; a line with a quote and `→` yields the text between the first two
quotes plus the meaning after `→` in the remainder; otherwise a line with `→`
not starting with `#` yields the part before the first `→` (leading `- *•`
stripped) and the meaning after it, provided both are nonempty. -/
def parseColloquialLine (raw : String) : Option String :=
  let line := pyStrip raw
  if strContains line "\"" && strContains line "→" then
    match splitOnCharL '"' line.data with
    | _ :: expr :: r0 :: rs =>
      let remaining := String.mk (List.intercalate ['"'] (r0 :: rs))
      if strContains remaining "→" then
        match pySplitOnChar '→' remaining with
        | _ :: m :: _ =>
          some (String.mk expr ++ " (" ++ cutAtParen (pyStrip m) ++ ")")
        | _ => none
      else none
    | _ => none
  else if strContains line "→" && !(startsWithL line.data ['#']) && line != "" then
    match pySplitOnChar '→' line with
    | p0 :: p1 :: _ =>
      let ep := pyStrip (lstripSet ['-', ' ', '*', '•'] (pyStrip p0))
      let meaning := cutAtParen (pyStrip p1)
      if ep != "" && meaning != "" then some (ep ++ " (" ++ meaning ++ ")")
      else none
    | _ => none
  else none

/-- `analyze_podcast_colloquialisms` from the `_make_api_call` on
(llm_analyzer.py lines 147-242), as a function of the ChatGPT response:
`""` is what `_make_api_call` returns on ANY request failure (timeout, quota,
HTTP error, malformed payload), so `response = ""` is the failed-call path; a
response containing `NO_COLLOQUIAL_EXPRESSIONS_FOUND` is the analyzer's
successful "nothing found" verdict; any other response is parsed line by line
and at most the first 5 expressions are returned. -/
def colloquialisms_from_response (response : String) : List String :=
  if response = "" then []
  else if strContains response "NO_COLLOQUIAL_EXPRESSIONS_FOUND" then []
  else ((pySplitOnChar '\n' response).filterMap parseColloquialLine).take 5

example :
    colloquialisms_from_response "- \"vale\" → 좋아 (합의)" = ["vale (좋아)"] := by
  decide

/-- C7 counterexample: a failed analyzer call and a successful "nothing
found" analysis produce the SAME value — the empty list — so the two
outcomes of `analyze_podcast_colloquialisms` are not distinguishable to the
caller. -/
theorem colloquialisms_failure_indistinguishable_counterexample :
    colloquialisms_from_response "" = []
    ∧ colloquialisms_from_response "NO_COLLOQUIAL_EXPRESSIONS_FOUND" = []
    ∧ colloquialisms_from_response ""
        = colloquialisms_from_response "NO_COLLOQUIAL_EXPRESSIONS_FOUND" := by
  decide

/-- C7 amended: EVERY successful "nothing found" response (one containing the
`NO_COLLOQUIAL_EXPRESSIONS_FOUND` sentinel) returns the empty list, the very
value the failed-call path returns, so the caller cannot tell analyzer
failure from a valid empty annotation set through the return value. -/
theorem colloquialisms_nothing_found_equals_failure (s : String)
    (h : strContains s "NO_COLLOQUIAL_EXPRESSIONS_FOUND" = true) :
    colloquialisms_from_response s = []
    ∧ colloquialisms_from_response s = colloquialisms_from_response "" := by
  have hs : s ≠ "" := by
    intro he
    rw [he] at h
    exact absurd h (by decide)
  unfold colloquialisms_from_response
  rw [if_neg hs, if_pos h]
  exact ⟨rfl, by rw [if_pos rfl]⟩

/-- Witness for the amended C7 at a concrete successful response. -/
theorem colloquialisms_nothing_found_equals_failure_witness :
    colloquialisms_from_response
        "Analysis: NO_COLLOQUIAL_EXPRESSIONS_FOUND." = [] :=
  (colloquialisms_nothing_found_equals_failure
    "Analysis: NO_COLLOQUIAL_EXPRESSIONS_FOUND." (by decide)).1

end SpanishAutomation
